import Mathlib

/-!
Verification of the essay-show grading orchestration core against its
natural-language specification.  The definitions below are a shallow
embedding of the Go source: pure functions model the event loops and
state transitions, external effects (document-store updates, quota
updates, remote calls, sink sends) are recorded as explicit action
traces, and outcomes of fallible collaborators (OCR, JSON parsing,
persistence) are supplied as environment fields.
-/

namespace EssayShow

/-- Submission status constants from consts:
StatusNotSubmission -1, StatusInitialized 0, StatusGrading 1,
StatusCompleted 2, StatusModified 3, StatusFailed 7. -/
inductive Status where
  | notSubmission
  | initialized
  | grading
  | completed
  | modified
  | failed
deriving DecidableEq, Repr

/-- The integer codes the source stores for each status. -/
def Status.code : Status → Int
  | .notSubmission => -1
  | .initialized => 0
  | .grading => 1
  | .completed => 2
  | .modified => 3
  | .failed => 7

/-- HomeworkSubmission (repository/homework): the fields the grading
pipeline reads or writes.  Times are Nat timestamps in minutes. -/
structure Submission where
  id : String
  homeworkId : String
  studentId : String
  teacherId : String
  title : String
  status : Status
  response : String
  gradeResult : String
  message : String
  createTime : Nat
  updateTime : Nat
deriving DecidableEq, Repr

/-- One decoded downstream JSON message of the grading stream.  The Go
loops unmarshal each channel string into a map and branch on its type
field: progress carries a message and opaque data, complete carries an
optional payload (some s exactly when the data field is a JSON object
that remarshals to s), error carries a message and data.  other stands
for a message whose type field is present but unknown (or a missing
type), malformed for a string json.Unmarshal rejects. -/
inductive DownEvent where
  | progress (message : String) (data : String)
  | complete (payload : Option String)
  | error (message : String) (data : String)
  | other
  | malformed
deriving DecidableEq, Repr

/-- A normalized message the relay hands to util.SendStreamMessage:
part carries the forwarded progress message and data, complete carries
the final response payload, error carries a message and optional data. -/
inductive SinkMsg where
  | part (message : String) (data : String)
  | complete (message : String) (response : String)
  | error (message : String) (data : Option String)
deriving DecidableEq, Repr

/-- The error values (consts.Err...) EssayEvaluateStream can return. -/
inductive Err where
  | notAuthentication
  | notFound
  | inSufficientCount
  | oneCall
  | call
deriving DecidableEq, Repr

/-- The StreamMessage struct of util/stream.go. -/
structure StreamMessage where
  type : String
  message : String
  dataJson : Option String
deriving DecidableEq, Repr

/-- Model of util.SendStreamMessage: the sink channel is a bounded list
of encoded strings with the given capacity; marshaled is the result of
json.Marshal on msg (none when serialization fails, in which case
nothing is sent).  A send on a full channel hits the select default
branch: the message is dropped and the channel is unchanged.  The
function is total and never signals an error to its caller. -/
def sendStreamMessage (capacity : Nat) (chan : List String) (msg : StreamMessage)
    (marshaled : Option String) : List String :=
  match msg, marshaled with
  | _, some jsonData => if chan.length < capacity then chan ++ [jsonData] else chan
  | _, none => chan

/-- The read loop of EssayEvaluateStream (sts.go): progress forwards a
part message; complete captures the payload (when the data field is an
object) and jumps out of the loop (goto exitLoop); error sends a fixed
downstream-error message with the event data and returns; unknown and
malformed messages are skipped.  Returns the emitted sink messages and
how the loop exited. -/
inductive LoopExit where
  | completed (finalResult : String)
  | errored (data : String)
  | closed (finalResult : String)
deriving DecidableEq, Repr

def essayLoop : List DownEvent → String → List SinkMsg × LoopExit
  | [], acc => ([], .closed acc)
  | .progress m d :: es, acc =>
      let r := essayLoop es acc
      (.part m d :: r.1, r.2)
  | .complete p :: _, acc => ([], .completed (p.getD acc))
  | .error _ d :: _, _ => ([.error "下游服务错误" (some d)], .errored d)
  | .other :: es, acc => essayLoop es acc
  | .malformed :: es, acc => essayLoop es acc

/-- Environment of one EssayEvaluateStream call: the authenticated user
id, whether UserMapper.FindOne succeeds, the user count, whether the
distributed Lock() succeeds, the decoded downstream events, and whether
the log insert and the count update succeed. -/
structure EssayEnv where
  userId : String
  userFound : Bool
  userCount : Int
  lockOk : Bool
  events : List DownEvent
  logId : String
  logInsertOk : Bool
  countUpdateOk : Bool

/-- External effects EssayEvaluateStream performs, in order: starting
the downstream EvaluateStream call, inserting the evaluation log, and
updating the user count by a delta. -/
inductive EssayAction where
  | remoteCall
  | logInsert
  | countUpdate (delta : Int)
deriving DecidableEq, Repr

/-- The value an EssayEvaluateStream call returns: nil or one of the
consts errors. -/
inductive EssayOutcome where
  | ok
  | error (e : Err)
deriving DecidableEq, Repr

structure EssayResult where
  msgs : List SinkMsg
  actions : List EssayAction
  outcome : EssayOutcome
deriving DecidableEq, Repr

/-- Model of EssayService.EssayEvaluateStream (sts.go): authentication,
user lookup, count check, lock acquisition (failure sends the
in-progress error and returns ErrOneCall before the remote call is
spawned), then the relay loop; an empty final result yields the generic
failure message and ErrCall, then log insert, count decrement and the
final complete message. -/
def essayEvaluateStream (env : EssayEnv) : EssayResult :=
  if env.userId = "" then
    ⟨[.error "用户未认证" none], [], .error .notAuthentication⟩
  else if env.userFound = false then
    ⟨[.error "用户不存在" none], [], .error .notFound⟩
  else if env.userCount ≤ 0 then
    ⟨[.error "剩余次数不足" none], [], .error .inSufficientCount⟩
  else if env.lockOk = false then
    ⟨[.error "当前有批改任务正在进行中" none], [], .error .oneCall⟩
  else
    let r := essayLoop env.events ""
    match r.2 with
    | .errored _ => ⟨r.1, [.remoteCall], .error .call⟩
    | .completed fr | .closed fr =>
      if fr = "" then
        ⟨r.1 ++ [.error "批改失败" none], [.remoteCall], .error .call⟩
      else if env.logInsertOk = false then
        ⟨r.1 ++ [.error "日志记录失败" none], [.remoteCall], .error .call⟩
      else if env.countUpdateOk = false then
        ⟨r.1 ++ [.error "用户次数扣减失败" none], [.remoteCall, .logInsert], .error .call⟩
      else
        ⟨r.1 ++ [.complete "批改已完成" fr], [.remoteCall, .logInsert, .countUpdate (-1)],
          .ok⟩

/-- The event loop of processOneSubmission (homework.go): complete
stores the payload and keeps reading (there is no break), error marks
the submission failed with the event message and returns, everything
else (including progress, which hits the default branch) is skipped;
when the channel closes the last captured payload is the result. -/
inductive PollExit where
  | failed (message : String)
  | done (finalResult : String)
deriving DecidableEq, Repr

def pollLoop : List DownEvent → String → PollExit
  | [], acc => .done acc
  | .progress _ _ :: es, acc => pollLoop es acc
  | .complete p :: es, acc => pollLoop es (p.getD acc)
  | .error m _ :: _, _ => .failed m
  | .other :: es, acc => pollLoop es acc
  | .malformed :: es, acc => pollLoop es acc

/-- markSubmissionFailed (homework.go): sets status FAILED, records the
reason message, touches updateTime, then best-effort Update. -/
def markSubmissionFailed (now : Nat) (sub : Submission) (reason : String) : Submission :=
  { sub with status := .failed, message := reason, updateTime := now }

/-- Environment of one processOneSubmission call: outcomes of the
teacher lookup, the teacher count, the homework lookup, the OCR call
(ocrErr some m is a transport error, ocrCode the response code,
ocrTitle the recognized title), the decoded downstream events, the
stateless.Evaluate parse outcome and its AllWithTotal score field, and
the success of the count update and the three submission Updates. -/
structure PollEnv where
  teacherFound : Bool
  teacherFindErr : String
  teacherCount : Int
  homeworkFound : Bool
  ocrErr : Option String
  ocrCode : Int
  ocrTitle : String
  events : List DownEvent
  parseEvaluateOk : Bool
  allWithTotal : String
  updateCountOk : Bool
  gradingUpdateOk : Bool
  finalUpdateOk : Bool
  finalUpdateErr : String
  failedUpdateOk : Bool
  now : Nat

/-- External effects of processOneSubmission, in order: the OCR call,
a SubmissionMapper.Update attempt (recording the written document and
whether the write succeeded), the downstream EvaluateStream call, and a
successful UserMapper.UpdateCount by a delta. -/
inductive PollAction where
  | ocrCall
  | write (sub : Submission) (ok : Bool)
  | remoteCall
  | countUpdate (delta : Int)
deriving DecidableEq, Repr

/-- GradeResult derivation of the final write:
strings.Split(AllWithTotal, "/")[0]. -/
def gradeResultOf (allWithTotal : String) : String :=
  (allWithTotal.splitOn "/").headD ""

/-- The in-memory submission after the transition to GRADING. -/
def gradingOf (env : PollEnv) (sub : Submission) : Submission :=
  { sub with status := .grading, updateTime := env.now, title := env.ocrTitle }

/-- The in-memory submission prepared for the final COMPLETED write. -/
def completedOf (env : PollEnv) (sub : Submission) (fr : String) : Submission :=
  let g := gradingOf env sub
  { g with
    status := .completed
    updateTime := env.now
    response := fr
    gradeResult := gradeResultOf env.allWithTotal }

/-- Model of HomeworkService.processOneSubmission (homework.go), as the
trace of its external effects: teacher lookup and count check, homework
lookup, OCR, transition to GRADING, the relay loop, then on success the
Evaluate parse, count decrement and the COMPLETED write; every failure
path funnels through markSubmissionFailed. -/
def processOneSubmission (env : PollEnv) (sub : Submission) : List PollAction :=
  if env.teacherFound = false then
    [.write (markSubmissionFailed env.now sub env.teacherFindErr) env.failedUpdateOk]
  else if env.teacherCount < 1 then
    [.write (markSubmissionFailed env.now sub "老师批改次数不足") env.failedUpdateOk]
  else if env.homeworkFound = false then
    [.write (markSubmissionFailed env.now sub "作业不存在") env.failedUpdateOk]
  else
    .ocrCall ::
      (match env.ocrErr with
       | some m => [.write (markSubmissionFailed env.now sub m) env.failedUpdateOk]
       | none =>
         if env.ocrCode ≠ 0 then
           [.write (markSubmissionFailed env.now sub "OCR失败") env.failedUpdateOk]
         else
           .write (gradingOf env sub) env.gradingUpdateOk :: .remoteCall ::
             (match pollLoop env.events "" with
              | .failed m =>
                [.write (markSubmissionFailed env.now (gradingOf env sub) m) env.failedUpdateOk]
              | .done fr =>
                if fr = "" then
                  [.write (markSubmissionFailed env.now (gradingOf env sub) "批改结果为空")
                    env.failedUpdateOk]
                else if env.parseEvaluateOk = false then
                  [.write (markSubmissionFailed env.now (gradingOf env sub) "批改结果不合法")
                    env.failedUpdateOk]
                else if env.updateCountOk = false then
                  [.write (markSubmissionFailed env.now (gradingOf env sub) "扣除批改次数失败")
                    env.failedUpdateOk]
                else
                  .countUpdate (-1) :: .write (completedOf env sub fr) env.finalUpdateOk ::
                    (if env.finalUpdateOk = true then []
                     else
                       [.write
                         (markSubmissionFailed env.now (completedOf env sub fr)
                           env.finalUpdateErr)
                         env.failedUpdateOk])))

/-- FindTimeoutSubmissions (submission_mongo.go): documents whose
status equals the given one and whose update_time is strictly before
the cutoff. -/
def findTimeoutSubmissions (store : List Submission) (st : Status) (before : Nat) :
    List Submission :=
  store.filter (fun s => decide (s.status = st ∧ s.updateTime < before))

/-- Model of SubmissionMongoMapper.Update: UpdateByID replaces the
document with the matching id. -/
def updateById (store : List Submission) (s : Submission) : List Submission :=
  store.map (fun t => if t.id = s.id then s else t)

/-- consts.TimeoutDuration, in minutes. -/
def timeoutMinutes : Nat := 20

/-- The reset a timed-out submission receives: status INITIALIZED and a
fresh updateTime. -/
def resetTimeout (now : Nat) (s : Submission) : Submission :=
  { s with status := .initialized, updateTime := now }

/-- Model of processTimeoutSubmissions (homework.go): select GRADING
submissions whose update_time is before now minus the timeout, then
update each selected one to INITIALIZED with a fresh updateTime. -/
def timeoutPass (now : Nat) (store : List Submission) : List Submission :=
  (findTimeoutSubmissions store .grading (now - timeoutMinutes)).foldl
    (fun acc s => updateById acc (resetTimeout now s)) store

/-- State of the grader: the number of live poller goroutines. -/
structure GraderState where
  pollers : Nat
deriving DecidableEq, Repr

/-- Model of HomeworkService.StartGrader (homework.go): each call
unconditionally spawns one more ticker goroutine (there is no guard, no
once, no flag) and returns nil. -/
def startGrader (s : GraderState) : GraderState :=
  { s with pollers := s.pollers + 1 }

/-- The cache key computation of DownloadSubmissionEvaluate
(homework.go): copy the request ids, sort.Strings, join with an
underscore. -/
def downloadCacheKey (submissionIds : List String) : String :=
  String.intercalate "_" (List.insertionSort (fun a b => a ≤ b) submissionIds)

/-- Model of ModifySubmissionEvaluate (homework.go), restricted to the
fields the submission invariant mentions: the stored response must
unmarshal into stateless.Evaluate (json.Unmarshal always rejects an
empty response), then status becomes 3 (MODIFIED) and the response is
replaced by the remarshaled result; on any earlier error nothing is
written. -/
def modifySubmissionEvaluate (parseOk : Bool) (newResponse : String) (now : Nat)
    (sub : Submission) : Option Submission :=
  if sub.response = "" ∨ parseOk = false then none
  else some { sub with status := .modified, response := newResponse, updateTime := now }

/-- Submissions persisted by successful Update calls in a trace. -/
def persistedWrites (trace : List PollAction) : List Submission :=
  trace.filterMap (fun a => match a with
    | .write s true => some s
    | _ => none)

/-- The spec invariant on persisted submissions: response or
gradeResult populated only in COMPLETED or MODIFIED, message populated
only in FAILED. -/
def submissionInvariant (s : Submission) : Prop :=
  ((s.response ≠ "" ∨ s.gradeResult ≠ "") → (s.status = .completed ∨ s.status = .modified)) ∧
  (s.message ≠ "" → s.status = .failed)

instance (s : Submission) : Decidable (submissionInvariant s) := by
  unfold submissionInvariant
  exact inferInstance

/-- True when some GRADING-status write precedes the first OCR call of
the trace (the ordering the claim asserts for processOneSubmission). -/
def isOcrCall : PollAction → Bool
  | .ocrCall => true
  | _ => false

def isGradingWrite : PollAction → Bool
  | .write s _ => s.status == .grading
  | _ => false

def gradingPrecedesOcr (t : List PollAction) : Bool :=
  !(t.any isOcrCall) || (t.takeWhile (fun a => !(isOcrCall a))).any isGradingWrite

/-- The document a timeout pass leaves at the position of a stored
submission t after updating every selected submission in l: the reset
of the (unique) selected submission sharing the id of t, or t itself
when none is selected. -/
def applyTimeout (l : List Submission) (now : Nat) (t : Submission) : Submission :=
  match l.find? (fun s => s.id == t.id) with
  | some s => resetTimeout now s
  | none => t

/-- A blank submission as SubmitHomework inserts it. -/
def subBlank : Submission :=
  { id := "s1"
    homeworkId := "h1"
    studentId := "u1"
    teacherId := "t1"
    title := ""
    status := .initialized
    response := ""
    gradeResult := ""
    message := ""
    createTime := 0
    updateTime := 0 }

/-- A poll environment in which every collaborator succeeds, with the
given downstream events. -/
def pollEnvOk (events : List DownEvent) : PollEnv :=
  { teacherFound := true
    teacherFindErr := ""
    teacherCount := 5
    homeworkFound := true
    ocrErr := none
    ocrCode := 0
    ocrTitle := "题目"
    events := events
    parseEvaluateOk := true
    allWithTotal := "85/100"
    updateCountOk := true
    gradingUpdateOk := true
    finalUpdateOk := true
    finalUpdateErr := "write failed"
    failedUpdateOk := true
    now := 100 }

/-- An essay environment in which every collaborator succeeds, with the
given downstream events. -/
def essayEnvOk (events : List DownEvent) : EssayEnv :=
  { userId := "u1"
    userFound := true
    userCount := 3
    lockOk := true
    events := events
    logId := "l1"
    logInsertOk := true
    countUpdateOk := true }

/-- C1 counterexample: in processOneSubmission the read loop does not
terminate at a complete event.  Two runs identical except for one extra
event after the complete end with different final persisted statuses:
with events [complete X] the last write is COMPLETED, with events
[complete X, error E] the same submission is instead written FAILED, so
an event arriving after complete changed the submission status. -/
theorem processOne_complete_not_terminal_cex :
    (persistedWrites (processOneSubmission (pollEnvOk [.complete (some "X")])
        subBlank)).getLast?.map Submission.status = some .completed ∧
    (persistedWrites (processOneSubmission
        (pollEnvOk [.complete (some "X"), .error "E" "D"])
        subBlank)).getLast?.map Submission.status = some .failed := by
  decide

/-- C1 (amended): in EssayEvaluateStream the complete event terminates
the read loop, so events after it are ignored; in processOneSubmission
the loop keeps consuming events until the channel closes, so a later
complete event overwrites the captured result and a later error event
fails the submission. -/
theorem complete_event_handling_amended (p : Option String) (post : List DownEvent)
    (acc x y m d : String) :
    essayLoop (.complete p :: post) acc = essayLoop [.complete p] acc ∧
    pollLoop (.complete (some x) :: post) acc = pollLoop post x ∧
    pollLoop [.complete (some x), .error m d] acc = .failed m ∧
    pollLoop [.complete (some x), .complete (some y)] acc = .done y :=
  ⟨rfl, rfl, rfl, rfl⟩

/-- C2 counterexample: on a fully successful run, processOneSubmission
performs the OCR call with no GRADING-status write before it — the
transition to GRADING happens only after OCR, contradicting the claimed
order quota, GRADING, OCR. -/
theorem grading_after_ocr_cex :
    gradingPrecedesOcr (processOneSubmission (pollEnvOk [.complete (some "X")]) subBlank)
      = false := by
  decide

/-- C4 counterexample: StartGrader is not idempotent.  Each call
unconditionally spawns a poller goroutine, so two calls leave two
concurrent pollers, contradicting the claim that at most one exists. -/
theorem start_grader_not_idempotent_cex :
    ¬ ((startGrader (startGrader { pollers := 0 })).pollers ≤ 1) := by
  decide

/-- C4 (amended): StartGrader is not idempotent — every call spawns
exactly one additional concurrent poller, so n calls produce n pollers. -/
theorem start_grader_spawns_each_call (s : GraderState) :
    (startGrader s).pollers = s.pollers + 1 :=
  rfl

/-- C9: the batch download cache key of DownloadSubmissionEvaluate is
independent of request ordering — permuted id lists give the identical
sorted, underscore-joined key. -/
theorem download_cache_key_perm_invariant (l1 l2 : List String) (h : l1.Perm l2) :
    downloadCacheKey l1 = downloadCacheKey l2 := by
  unfold downloadCacheKey
  congr 1
  exact List.eq_of_perm_of_sorted
    (((List.perm_insertionSort _ l1).trans h).trans (List.perm_insertionSort _ l2).symm)
    (List.sorted_insertionSort _ l1) (List.sorted_insertionSort _ l2)

theorem download_cache_key_perm_invariant_witness :
    downloadCacheKey ["b", "a"] = downloadCacheKey ["a", "b"] :=
  download_cache_key_perm_invariant ["b", "a"] ["a", "b"] (List.Perm.swap "a" "b" [])

/-- C10: SendStreamMessage never signals an error or blocks — on a full
channel the message is silently dropped and the channel is unchanged, a
serialization failure sends nothing, and a sink can therefore observe
fewer messages than were forwarded (a send on a zero-capacity channel
leaves it empty). -/
theorem send_stream_message_nonblocking (capacity : Nat) (chan : List String)
    (msg : StreamMessage) (marshaled : Option String) :
    (capacity ≤ chan.length → sendStreamMessage capacity chan msg marshaled = chan) ∧
    (sendStreamMessage capacity chan msg none = chan) ∧
    sendStreamMessage 0 [] msg (some "json") = [] := by
  refine ⟨fun h => ?_, rfl, rfl⟩
  cases marshaled with
  | none => rfl
  | some j => simp [sendStreamMessage, Nat.not_lt.mpr h]

theorem send_stream_message_nonblocking_witness :
    sendStreamMessage 1 ["m"] ⟨"part", "p", none⟩ (some "j") = ["m"] :=
  (send_stream_message_nonblocking 1 ["m"] ⟨"part", "p", none⟩ (some "j")).1 (by decide)

/-- C8: when Lock() fails in EssayEvaluateStream (for an authenticated
user with remaining count), the call sends the in-progress error to the
sink and returns ErrOneCall with an empty action trace: the remote
grading call is never spawned, no log record is written and the user
count is not decremented. -/
theorem lock_contention_rejected (uid lid : String) (cnt : Int) (events : List DownEvent)
    (b1 b2 : Bool) (huid : uid ≠ "") (hcnt : 0 < cnt) :
    essayEvaluateStream
        { userId := uid
          userFound := true
          userCount := cnt
          lockOk := false
          events := events
          logId := lid
          logInsertOk := b1
          countUpdateOk := b2 } =
      { msgs := [.error "当前有批改任务正在进行中" none]
        actions := []
        outcome := .error .oneCall } := by
  have h1 : ¬ (cnt ≤ 0) := by omega
  simp [essayEvaluateStream, huid, h1]

theorem lock_contention_rejected_witness :
    essayEvaluateStream
        { userId := "u1"
          userFound := true
          userCount := 3
          lockOk := false
          events := []
          logId := "l1"
          logInsertOk := true
          countUpdateOk := true } =
      { msgs := [.error "当前有批改任务正在进行中" none]
        actions := []
        outcome := .error .oneCall } :=
  lock_contention_rejected "u1" "l1" 3 [] true true (by decide) (by decide)

/-- C5: relay ordering and termination.  For the downstream sequence
[progress, progress, complete X] the sink receives the two progress
messages in arrival order followed by one completion carrying X and the
call succeeds; for [progress, error E] it receives one progress then
one error and the call returns an error with no final payload sent. -/
theorem relay_ordering_and_termination (uid lid m1 d1 m2 d2 x em ed : String) (cnt : Int)
    (huid : uid ≠ "") (hcnt : 0 < cnt) (hx : x ≠ "") :
    essayEvaluateStream
        { userId := uid
          userFound := true
          userCount := cnt
          lockOk := true
          events := [.progress m1 d1, .progress m2 d2, .complete (some x)]
          logId := lid
          logInsertOk := true
          countUpdateOk := true } =
      { msgs := [.part m1 d1, .part m2 d2, .complete "批改已完成" x]
        actions := [.remoteCall, .logInsert, .countUpdate (-1)]
        outcome := .ok } ∧
    essayEvaluateStream
        { userId := uid
          userFound := true
          userCount := cnt
          lockOk := true
          events := [.progress m1 d1, .error em ed]
          logId := lid
          logInsertOk := true
          countUpdateOk := true } =
      { msgs := [.part m1 d1, .error "下游服务错误" (some ed)]
        actions := [.remoteCall]
        outcome := .error .call } := by
  have h1 : ¬ (cnt ≤ 0) := by omega
  constructor <;> simp [essayEvaluateStream, essayLoop, huid, h1, hx]

theorem relay_ordering_and_termination_witness :
    essayEvaluateStream
        { userId := "u1"
          userFound := true
          userCount := 3
          lockOk := true
          events := [.progress "p1" "d1", .progress "p2" "d2", .complete (some "X")]
          logId := "l1"
          logInsertOk := true
          countUpdateOk := true } =
      { msgs := [.part "p1" "d1", .part "p2" "d2", .complete "批改已完成" "X"]
        actions := [.remoteCall, .logInsert, .countUpdate (-1)]
        outcome := .ok } :=
  (relay_ordering_and_termination "u1" "l1" "p1" "d1" "p2" "d2" "X" "E" "D" 3
    (by decide) (by decide) (by decide)).1

/-- C7 counterexample: EssayEvaluateStream does not classify the empty
stream separately from an explicit error event in the error it returns
to its caller — both return the same consts.ErrCall value. -/
theorem empty_stream_same_error_cex :
    (essayEvaluateStream (essayEnvOk [])).outcome =
      (essayEvaluateStream (essayEnvOk [.error "下游异常" "D"])).outcome ∧
    (essayEvaluateStream (essayEnvOk [])).outcome = .error .call := by
  decide

/-- C7 (amended): an event stream that closes with no terminal event is
distinguished from an explicit error event only in the failure message,
not in the returned error: EssayEvaluateStream sends 批改失败 for the
empty stream and 下游服务错误 for the error event yet returns ErrCall in
both cases, while processOneSubmission records the dedicated message
批改结果为空 on an empty stream. -/
theorem empty_stream_classification_amended (uid lid em ed : String) (cnt : Int)
    (env : PollEnv) (sub : Submission)
    (huid : uid ≠ "") (hcnt : 0 < cnt)
    (hT : env.teacherFound = true) (hcount : 1 ≤ env.teacherCount)
    (hHw : env.homeworkFound = true) (hocr : env.ocrErr = none) (hcode : env.ocrCode = 0)
    (hev : env.events = []) :
    essayEvaluateStream
        { userId := uid
          userFound := true
          userCount := cnt
          lockOk := true
          events := []
          logId := lid
          logInsertOk := true
          countUpdateOk := true } =
      { msgs := [.error "批改失败" none]
        actions := [.remoteCall]
        outcome := .error .call } ∧
    essayEvaluateStream
        { userId := uid
          userFound := true
          userCount := cnt
          lockOk := true
          events := [.error em ed]
          logId := lid
          logInsertOk := true
          countUpdateOk := true } =
      { msgs := [.error "下游服务错误" (some ed)]
        actions := [.remoteCall]
        outcome := .error .call } ∧
    ("批改失败" : String) ≠ "下游服务错误" ∧
    processOneSubmission env sub =
      [.ocrCall, .write (gradingOf env sub) env.gradingUpdateOk, .remoteCall,
        .write (markSubmissionFailed env.now (gradingOf env sub) "批改结果为空")
          env.failedUpdateOk] := by
  have h1 : ¬ (cnt ≤ 0) := by omega
  have h2 : ¬ (env.teacherCount < 1) := by omega
  refine ⟨?_, ?_, by decide, ?_⟩
  · simp [essayEvaluateStream, essayLoop, huid, h1]
  · simp [essayEvaluateStream, essayLoop, huid, h1]
  · simp [processOneSubmission, pollLoop, hT, h2, hHw, hocr, hcode, hev]

theorem empty_stream_classification_amended_witness :
    processOneSubmission (pollEnvOk []) subBlank =
      [.ocrCall, .write (gradingOf (pollEnvOk []) subBlank) (pollEnvOk []).gradingUpdateOk,
        .remoteCall,
        .write
          (markSubmissionFailed (pollEnvOk []).now (gradingOf (pollEnvOk []) subBlank)
            "批改结果为空")
          (pollEnvOk []).failedUpdateOk] :=
  (empty_stream_classification_amended "u1" "l1" "E" "D" 3 (pollEnvOk []) subBlank
    (by decide) (by decide) rfl (by decide) rfl rfl rfl rfl).2.2.2

/-- C2 (amended): the steps of processOneSubmission occur in the order:
quota verification (quota below one fails the submission at once, with
no OCR and no GRADING transition), then OCR (an OCR failure fails the
submission while it is still INITIALIZED — the GRADING transition has
not happened yet), then the transition to GRADING, then the streaming
relay; on relay success the teacher count is decremented and the
submission is written COMPLETED with the stored response and the
derived gradeResult. -/
theorem processOne_step_order_amended (env : PollEnv) (sub : Submission)
    (hT : env.teacherFound = true) (hHw : env.homeworkFound = true) :
    (env.teacherCount < 1 →
      processOneSubmission env sub =
        [.write (markSubmissionFailed env.now sub "老师批改次数不足") env.failedUpdateOk]) ∧
    (∀ m, 1 ≤ env.teacherCount → env.ocrErr = some m →
      processOneSubmission env sub =
        [.ocrCall, .write (markSubmissionFailed env.now sub m) env.failedUpdateOk]) ∧
    (∀ fr, 1 ≤ env.teacherCount → env.ocrErr = none → env.ocrCode = 0 →
      pollLoop env.events "" = .done fr → fr ≠ "" →
      env.parseEvaluateOk = true → env.updateCountOk = true → env.finalUpdateOk = true →
      processOneSubmission env sub =
        [.ocrCall, .write (gradingOf env sub) env.gradingUpdateOk, .remoteCall,
          .countUpdate (-1), .write (completedOf env sub fr) true]) := by
  refine ⟨fun hq => ?_, fun m hq hm => ?_, fun fr hq hm hc hl hfr hp hu hf => ?_⟩
  · simp [processOneSubmission, hT, hq]
  · have h2 : ¬ (env.teacherCount < 1) := by omega
    simp [processOneSubmission, hT, h2, hHw, hm]
  · have h2 : ¬ (env.teacherCount < 1) := by omega
    simp [processOneSubmission, hT, h2, hHw, hm, hc, hl, hfr, hp, hu, hf]

theorem processOne_step_order_amended_witness :
    processOneSubmission (pollEnvOk [.complete (some "X")]) subBlank =
      [.ocrCall,
        .write (gradingOf (pollEnvOk [.complete (some "X")]) subBlank)
          (pollEnvOk [.complete (some "X")]).gradingUpdateOk,
        .remoteCall, .countUpdate (-1),
        .write (completedOf (pollEnvOk [.complete (some "X")]) subBlank "X") true] :=
  (processOne_step_order_amended (pollEnvOk [.complete (some "X")]) subBlank rfl rfl).2.2
    "X" (by decide) rfl rfl rfl (by decide) rfl rfl rfl

theorem sub_id_inj {store : List Submission}
    (h : store.Pairwise (fun a b => a.id ≠ b.id)) :
    ∀ {s t : Submission}, s ∈ store → t ∈ store → s.id = t.id → s = t := by
  induction store with
  | nil =>
    intro s t hs _ _
    simp at hs
  | cons a rest ih =>
    intro s t hs ht hid
    rcases List.pairwise_cons.mp h with ⟨ha, hrest⟩
    rcases List.mem_cons.mp hs with rfl | hs2
    · rcases List.mem_cons.mp ht with rfl | ht2
      · rfl
      · exact absurd hid (ha t ht2)
    · rcases List.mem_cons.mp ht with rfl | ht2
      · exact absurd hid.symm (ha s hs2)
      · exact ih hrest hs2 ht2 hid

theorem find_id_of_mem {store : List Submission}
    (h : store.Pairwise (fun a b => a.id ≠ b.id)) {t : Submission} (ht : t ∈ store) :
    store.find? (fun s => s.id == t.id) = some t := by
  induction store with
  | nil => simp at ht
  | cons a rest ih =>
    rcases List.pairwise_cons.mp h with ⟨ha, hrest⟩
    rcases List.mem_cons.mp ht with rfl | ht2
    · rw [List.find?_cons_of_pos]
      simp
    · rw [List.find?_cons_of_neg]
      · exact ih hrest ht2
      · simp [ha t ht2]

theorem find_id_of_not_mem {l : List Submission} {t : Submission}
    (h : ∀ s ∈ l, s.id ≠ t.id) :
    l.find? (fun s => s.id == t.id) = none := by
  apply List.find?_eq_none.mpr
  intro s hs
  simp [h s hs]

theorem timeout_fold_eq (now : Nat) (l : List Submission)
    (hl : l.Pairwise (fun a b => a.id ≠ b.id)) :
    ∀ store : List Submission,
      l.foldl (fun acc s => updateById acc (resetTimeout now s)) store =
        store.map (fun t => applyTimeout l now t) := by
  induction l with
  | nil =>
    intro store
    simp [applyTimeout, List.find?]
  | cons a rest ih =>
    intro store
    rcases List.pairwise_cons.mp hl with ⟨ha, hrest⟩
    rw [List.foldl_cons, ih hrest]
    unfold updateById
    rw [List.map_map]
    apply List.map_congr_left
    intro t _
    show applyTimeout rest now (if t.id = (resetTimeout now a).id then resetTimeout now a else t)
      = applyTimeout (a :: rest) now t
    by_cases hid : t.id = a.id
    · have hres : t.id = (resetTimeout now a).id := hid
      rw [if_pos hres]
      unfold applyTimeout
      rw [@find_id_of_not_mem rest (resetTimeout now a) (fun s hs he => ha s hs he.symm),
        List.find?_cons_of_pos _ (by simp [hid])]
    · rw [if_neg (by simpa [resetTimeout] using hid)]
      unfold applyTimeout
      rw [List.find?_cons_of_neg _
        (by simp only [beq_iff_eq]; exact fun he => hid he.symm)]

/-- Pointwise characterization of one processTimeoutSubmissions pass on
a store with pairwise-distinct ids: exactly the GRADING submissions
strictly older than the timeout are replaced by their reset, every
other submission keeps its position and value. -/
theorem timeoutPass_eq_map (now : Nat) (store : List Submission)
    (h : store.Pairwise (fun a b => a.id ≠ b.id)) :
    timeoutPass now store = store.map (fun s =>
      if s.status = .grading ∧ s.updateTime + timeoutMinutes < now
      then resetTimeout now s else s) := by
  unfold timeoutPass findTimeoutSubmissions
  rw [timeout_fold_eq now _ (h.filter _)]
  apply List.map_congr_left
  intro t ht
  by_cases hc : t.status = .grading ∧ t.updateTime + timeoutMinutes < now
  · have hmem : t ∈ store.filter
        (fun s => decide (s.status = Status.grading ∧ s.updateTime < now - timeoutMinutes)) := by
      rw [List.mem_filter]
      refine ⟨ht, ?_⟩
      have : t.updateTime < now - timeoutMinutes := by omega
      simp [hc.1, this]
    unfold applyTimeout
    rw [find_id_of_mem (h.filter _) hmem, if_pos hc]
  · unfold applyTimeout
    rw [find_id_of_not_mem, if_neg hc]
    intro s hs
    rw [List.mem_filter] at hs
    intro hid
    have hst : s = t := sub_id_inj h hs.1 ht hid
    rcases hs with ⟨-, hp⟩
    rw [hst] at hp
    simp at hp
    exact hc ⟨hp.1, by omega⟩

/-- C3: one pass of processTimeoutSubmissions over a store with
pairwise-distinct ids resets exactly the GRADING submissions whose
updateTime lies strictly more than 20 minutes in the past to
INITIALIZED with a fresh updateTime, and leaves every GRADING
submission within the window (and everything else) unchanged. -/
theorem timeout_reset_pass (now : Nat) (store : List Submission)
    (h : store.Pairwise (fun a b => a.id ≠ b.id)) :
    timeoutPass now store = store.map (fun s =>
      if s.status = .grading ∧ s.updateTime + timeoutMinutes < now
      then resetTimeout now s else s) ∧
    ∀ s : Submission, (resetTimeout now s).status = .initialized ∧
      (resetTimeout now s).updateTime = now :=
  ⟨timeoutPass_eq_map now store h, fun _ => ⟨rfl, rfl⟩⟩

theorem timeout_reset_pass_witness :
    timeoutPass 100
        [{ subBlank with status := .grading, updateTime := 50 },
          { subBlank with id := "s2", status := .grading, updateTime := 90 }] =
      [{ subBlank with status := .initialized, updateTime := 100 },
        { subBlank with id := "s2", status := .grading, updateTime := 90 }] := by
  rw [(timeout_reset_pass 100
    [{ subBlank with status := .grading, updateTime := 50 },
      { subBlank with id := "s2", status := .grading, updateTime := 90 }] (by decide)).1]
  decide

theorem mem_persistedWrites {w : Submission} {t : List PollAction} :
    w ∈ persistedWrites t ↔ PollAction.write w true ∈ t := by
  unfold persistedWrites
  rw [List.mem_filterMap]
  constructor
  · rintro ⟨a, ha, hfa⟩
    cases a with
    | write s ok =>
      cases ok with
      | true =>
        simp at hfa
        exact hfa ▸ ha
      | false => simp at hfa
    | ocrCall => simp at hfa
    | remoteCall => simp at hfa
    | countUpdate d => simp at hfa
  · intro hw
    exact ⟨.write w true, hw, rfl⟩

/-- Shape of every persisted write of one processOneSubmission run on a
blank-fielded input: the message field is populated only on FAILED
writes, and the response or gradeResult fields are populated only on
the COMPLETED write or on the best-effort FAILED write that follows a
failed COMPLETED persist. -/
theorem processOne_invariant_writes (env : PollEnv) (sub : Submission)
    (hresp : sub.response = "") (hgr : sub.gradeResult = "") (hmsg : sub.message = "")
    (w : Submission) (hw : w ∈ persistedWrites (processOneSubmission env sub)) :
    (w.message ≠ "" → w.status = .failed) ∧
    ((w.response ≠ "" ∨ w.gradeResult ≠ "") →
      (w.status = .completed ∨ (w.status = .failed ∧ env.finalUpdateOk = false))) := by
  rw [mem_persistedWrites] at hw
  unfold processOneSubmission at hw
  repeat' split at hw
  all_goals simp [List.mem_cons] at hw
  · obtain ⟨rfl, -⟩ := hw
    simp_all [markSubmissionFailed]
  · obtain ⟨rfl, -⟩ := hw
    simp_all [markSubmissionFailed]
  · obtain ⟨rfl, -⟩ := hw
    simp_all [markSubmissionFailed]
  · obtain ⟨rfl, -⟩ := hw
    simp_all [markSubmissionFailed]
  · obtain ⟨rfl, -⟩ := hw
    simp_all [markSubmissionFailed]
  · rcases hw with (⟨rfl, -⟩ | ⟨rfl, -⟩) <;> simp_all [markSubmissionFailed, gradingOf]
  · rcases hw with (⟨rfl, -⟩ | ⟨rfl, -⟩) <;> simp_all [markSubmissionFailed, gradingOf]
  · rcases hw with (⟨rfl, -⟩ | ⟨rfl, -⟩) <;> simp_all [markSubmissionFailed, gradingOf]
  · rcases hw with (⟨rfl, -⟩ | ⟨rfl, -⟩) <;> simp_all [markSubmissionFailed, gradingOf]
  · rcases hw with (⟨rfl, -⟩ | ⟨rfl, -⟩) <;> simp_all [gradingOf, completedOf]
  · rcases hw with (⟨rfl, -⟩ | ⟨rfl, hflag⟩ | ⟨rfl, -⟩) <;>
      simp_all [markSubmissionFailed, gradingOf, completedOf]

/-- C6 counterexample: the spec invariant fails on the code.  Run
processOneSubmission with every collaborator succeeding except the
final COMPLETED persist: the best-effort FAILED write that follows
persists a submission whose status is FAILED but whose response and
gradeResult are still populated from the completed result. -/
theorem failed_write_retains_response_cex :
    ¬ (∀ w ∈ persistedWrites (processOneSubmission
        { (pollEnvOk [.complete (some "X")]) with finalUpdateOk := false } subBlank),
        submissionInvariant w) := by
  decide

/-- C6 (amended): for blank-fielded input submissions, every persisted
write of processOneSubmission populates message only on FAILED writes,
and populates response or gradeResult only on the COMPLETED write or on
the best-effort FAILED write that follows a failed COMPLETED persist
(which retains both fields alongside the failure message);
markSubmissionFailed always writes status FAILED; a
processTimeoutSubmissions pass preserves the invariant; and
ModifySubmissionEvaluate preserves the invariant on inputs satisfying
it. -/
theorem submission_field_invariant_amended :
    (∀ (env : PollEnv) (sub : Submission) (w : Submission),
      sub.response = "" → sub.gradeResult = "" → sub.message = "" →
      w ∈ persistedWrites (processOneSubmission env sub) →
      (w.message ≠ "" → w.status = .failed) ∧
      ((w.response ≠ "" ∨ w.gradeResult ≠ "") →
        (w.status = .completed ∨ (w.status = .failed ∧ env.finalUpdateOk = false)))) ∧
    (∀ (now : Nat) (sub : Submission) (reason : String),
      (markSubmissionFailed now sub reason).status = .failed) ∧
    (∀ (now : Nat) (store : List Submission),
      store.Pairwise (fun a b => a.id ≠ b.id) →
      (∀ s ∈ store, submissionInvariant s) →
      ∀ w ∈ timeoutPass now store, submissionInvariant w) ∧
    (∀ (parseOk : Bool) (newResponse : String) (now : Nat) (sub w : Submission),
      submissionInvariant sub → newResponse ≠ "" →
      modifySubmissionEvaluate parseOk newResponse now sub = some w →
      submissionInvariant w) := by
  refine ⟨?_, fun _ _ _ => rfl, ?_, ?_⟩
  · intro env sub w hresp hgr hmsg hw
    exact processOne_invariant_writes env sub hresp hgr hmsg w hw
  · intro now store hpair hinv w hw
    rw [timeoutPass_eq_map now store hpair] at hw
    rcases List.mem_map.mp hw with ⟨s, hs, rfl⟩
    by_cases hc : s.status = .grading ∧ s.updateTime + timeoutMinutes < now
    · rw [if_pos hc]
      constructor
      · intro hr
        have h1 := (hinv s hs).1 hr
        rw [hc.1] at h1
        rcases h1 with h1 | h1 <;> exact absurd h1 (by simp)
      · intro hm
        have h2 := (hinv s hs).2 hm
        rw [hc.1] at h2
        exact absurd h2 (by simp)
    · rw [if_neg hc]
      exact hinv s hs
  · intro parseOk newResponse now sub w hinv hnr hmod
    unfold modifySubmissionEvaluate at hmod
    split at hmod
    · exact absurd hmod (by simp)
    · rename_i hcond
      rw [Option.some.injEq] at hmod
      subst hmod
      rw [not_or] at hcond
      constructor
      · intro _
        exact Or.inr rfl
      · intro hm
        have hfail := hinv.2 hm
        have hcm := hinv.1 (Or.inl hcond.1)
        rw [hfail] at hcm
        rcases hcm with hcm | hcm <;> exact absurd hcm (by simp)

theorem submission_field_invariant_amended_witness :
    submissionInvariant
      { subBlank with status := .modified, response := "R", updateTime := 7 } :=
  submission_field_invariant_amended.2.2.2 true "R" 7
    { subBlank with status := .completed, response := "X" }
    { subBlank with status := .modified, response := "R", updateTime := 7 }
    (by decide) (by decide) rfl

end EssayShow
